import Mathlib

/-!
Verification development for the MongoDB MCP server
(`src/mongodb/src/mcp_server_mongodb/server.py`).

The server is shallowly embedded: Python dictionaries and JSON-compatible
values become the inductive `JValue`, the mutable `MongoDatabase` object
(its backing store connection plus the in-process insights ledger) becomes
the explicit state `DBState`, exceptions become `Except` values, and the
transport substrate's notification primitive becomes an `Except String Unit`
parameter describing the outcome of the awaited send.

The backing document store (pymongo) is an external collaborator, out of
scope per the specification; its per-collection primitives (find /
insert_one / insert_many / update_many / delete_many / create_collection /
list_collection_names) are modelled here by executable functions over an
association-list store, faithful to their documented interface: equality
filters match documents, `update_many` / `delete_many` act on every
matching document, `insert` generates opaque object identifiers.
-/

/-- JSON-compatible values as passed through the MCP layer, extended with
`oid`, the store-native opaque object-identifier type (pymongo `ObjectId`),
which is not JSON-native and must be stringified before transport. -/
inductive JValue where
  | str : String → JValue
  | num : Int → JValue
  | oid : Nat → JValue
  | arr : List JValue → JValue
  | obj : List (String × JValue) → JValue

/-- Document: a mapping from string keys to values (a Python dict). -/
abbrev Doc := List (String × JValue)

/-- Arguments payload of a tool call (a Python dict). -/
abbrev Args := List (String × JValue)

mutual

/-- Structural equality of values (Python `==` on JSON-compatible data). -/
def JValue.beq : JValue → JValue → Bool
  | .str a, .str b => a == b
  | .num a, .num b => a == b
  | .oid a, .oid b => a == b
  | .arr a, .arr b => JValue.beqList a b
  | .obj a, .obj b => JValue.beqFields a b
  | _, _ => false

def JValue.beqList : List JValue → List JValue → Bool
  | [], [] => true
  | a :: as, b :: bs => JValue.beq a b && JValue.beqList as bs
  | _, _ => false

def JValue.beqFields : List (String × JValue) → List (String × JValue) → Bool
  | [], [] => true
  | (k, a) :: as, (l, b) :: bs => k == l && JValue.beq a b && JValue.beqFields as bs
  | _, _ => false

end

/-- Rendering of the opaque object identifier as its hexadecimal string,
modelling `str(ObjectId(...))`; an injective textual encoding. -/
def oidString (n : Nat) : String :=
  "oid" ++ toString n

mutual

/-- Python `repr` of a JSON-compatible value (single-quoted strings,
bracketed lists, braced dicts), as produced inside `str()` of containers. -/
def pyRepr : JValue → String
  | .str s => "\x27" ++ s ++ "\x27"
  | .num n => toString n
  | .oid n => "ObjectId(\x27" ++ oidString n ++ "\x27)"
  | .arr xs => "[" ++ pyReprList xs ++ "]"
  | .obj fs => "\x7b" ++ pyReprFields fs ++ "\x7d"

def pyReprList : List JValue → String
  | [] => ""
  | [x] => pyRepr x
  | x :: y :: xs => pyRepr x ++ ", " ++ pyReprList (y :: xs)

def pyReprFields : List (String × JValue) → String
  | [] => ""
  | [(k, v)] => "\x27" ++ k ++ "\x27: " ++ pyRepr v
  | (k, v) :: p :: xs => "\x27" ++ k ++ "\x27: " ++ pyRepr v ++ ", " ++ pyReprFields (p :: xs)

end

/-- Python `str` of a value: like `repr` except a top-level string is
returned verbatim (as in an f-string interpolation). -/
def pyStr : JValue → String
  | .str s => s
  | .oid n => oidString n
  | v => pyRepr v

/-- Python `str` of a list of dicts, as in `str(results)` in the router. -/
def pyStrDocs (docs : List Doc) : String :=
  pyRepr (.arr (docs.map JValue.obj))

/-- MongoDatabase._synthesize_memo: formats the insights ledger into the
memo text — the fixed sentence when empty, otherwise a header, one "- "
bullet per insight in ledger order, and a summary sentence when more than
one insight has been recorded. -/
def synthesize_memo (insights : List JValue) : String :=
  if insights.isEmpty then
    "No business insights have been discovered yet."
  else
    let bullets := String.intercalate "\n" (insights.map (fun insight => "- " ++ pyStr insight))
    let memo := "📊 Business Intelligence Memo 📊\n\n" ++ "Key Insights Discovered:\n\n" ++ bullets
    if insights.length > 1 then
      memo ++ "\nSummary:\n" ++
        ("Analysis has revealed " ++ toString insights.length ++
          " key business insights that suggest opportunities for strategic optimization and growth.")
    else
      memo

/-- Explicit state of one `MongoDatabase` instance: the backing store's
named collections, the in-process insights ledger (`self.insights`, created
empty in `__init__`), and the store's object-identifier generator. -/
structure DBState where
  collections : List (String × List Doc)
  insights : List JValue
  nextId : Nat

/-- State at startup: empty store model, empty insights ledger. -/
def initialState : DBState :=
  { collections := [], insights := [], nextId := 0 }

/-- Store model: `self.db[name]` — a collection accessed lazily; reading a
collection that was never written behaves as empty. -/
def getCollection (s : DBState) (name : String) : List Doc :=
  (s.collections.lookup name).getD []

/-- Store model: overwrite the documents of collection `name`, creating the
collection entry if absent (Mongo materializes a collection on first write). -/
def setCollection (s : DBState) (name : String) (docs : List Doc) : DBState :=
  if (s.collections.lookup name).isSome then
    { s with collections := s.collections.map (fun p => if p.1 == name then (name, docs) else p) }
  else
    { s with collections := s.collections ++ [(name, docs)] }

/-- Store model: a document matches an equality filter when every filter
field is present in the document with a structurally equal value. -/
def matchesFilter (f : Doc) (d : Doc) : Bool :=
  f.all (fun p =>
    match d.lookup p.1 with
    | some v => JValue.beq v p.2
    | none => false)

/-- Store model: set one field of a document, replacing it in place when
present and appending it otherwise. -/
def setField (d : Doc) (k : String) (v : JValue) : Doc :=
  if d.any (fun p => p.1 == k) then
    d.map (fun p => if p.1 == k then (k, v) else p)
  else
    d ++ [(k, v)]

/-- Store model: apply an update-operator document; the `$set` operator
writes each listed field, other operators are opaque to this model and
leave the document unchanged. -/
def applyUpdate (u : Doc) (d : Doc) : Doc :=
  match u.lookup "$set" with
  | some (.obj fields) => fields.foldl (fun acc p => setField acc p.1 p.2) d
  | _ => d

/-- Store model: `insert_one` — appends the document to the collection; a
fresh opaque object identifier is generated for `_id` when the document
does not carry one, and the inserted identifier value is returned. -/
def insertDoc (s : DBState) (name : String) (fields : Doc) : JValue × DBState :=
  match fields.lookup "_id" with
  | some v => (v, setCollection s name (getCollection s name ++ [fields]))
  | none =>
    let idv := JValue.oid s.nextId
    let s1 := setCollection s name (getCollection s name ++ [fields ++ [("_id", idv)]])
    (idv, { s1 with nextId := s.nextId + 1 })

/-- Store model: `insert_many` — inserts the documents in order and returns
the inserted identifier values in the same order. -/
def insertMany (name : String) : DBState → List Doc → List JValue × DBState
  | s, [] => ([], s)
  | s, d :: ds =>
    let r := insertDoc s name d
    let r2 := insertMany name r.2 ds
    (r.1 :: r2.1, r2.2)

mutual

/-- Model of `json.loads(json_util.dumps(...))` on one value: store-native
object identifiers are rendered in their canonical extended-JSON textual
form, a dict carrying the identifier's hex string. -/
def jsonNormalize : JValue → JValue
  | .str s => .str s
  | .num n => .num n
  | .oid n => .obj [("$oid", .str (oidString n))]
  | .arr xs => .arr (jsonNormalizeList xs)
  | .obj fs => .obj (jsonNormalizeFields fs)

def jsonNormalizeList : List JValue → List JValue
  | [] => []
  | x :: xs => jsonNormalize x :: jsonNormalizeList xs

def jsonNormalizeFields : List (String × JValue) → List (String × JValue)
  | [] => []
  | (k, v) :: xs => (k, jsonNormalize v) :: jsonNormalizeFields xs

end

/-- View a list of values as a list of documents, when every element is a
dict (the shape `insert_many` requires). -/
def asDocs : List JValue → Option (List Doc)
  | [] => some []
  | .obj f :: rest => (asDocs rest).map (fun ds => f :: ds)
  | _ => none

/-- Python `dict.get(k, default)` on a dict value. -/
def getFieldD (q : Doc) (k : String) (default : JValue) : JValue :=
  (q.lookup k).getD default

/-- MongoDatabase._execute_query: dispatches one abstract operation to the
store and shapes the result documents exactly as the source does; a store
fault or an unsupported operation is re-raised (`Except.error`). The state
is threaded explicitly in place of the mutable connection. -/
def _execute_query (query : JValue) (operation : String) (collection_name : String)
    (s : DBState) : Except String (List Doc × DBState) :=
  if operation == "find" then
    match query with
    | .obj f =>
      .ok (((getCollection s collection_name).filter (matchesFilter f)).map jsonNormalizeFields, s)
    | _ => .error "filter must be an instance of dict"
  else if operation == "aggregate" then
    match getFieldD (match query with | .obj q => q | _ => []) "pipeline" (.arr []) with
    | .arr _ =>
      -- The store's pipeline evaluator is an out-of-scope collaborator;
      -- modelled as returning the collection's documents.
      .ok ((getCollection s collection_name).map jsonNormalizeFields, s)
    | _ => .error "pipeline must be a list"
  else if operation == "insert" then
    match query with
    | .arr items =>
      if items.isEmpty then
        .error "documents must be a non-empty list"
      else
        match asDocs items with
        | some docs =>
          let r := insertMany collection_name s docs
          .ok ([[("inserted_ids", JValue.arr (r.1.map (fun v => JValue.str (pyStr v))))]], r.2)
        | none => .error "documents must be a list of dicts"
    | .obj fields =>
      let r := insertDoc s collection_name fields
      .ok ([[("inserted_id", JValue.str (pyStr r.1))]], r.2)
    | _ => .error "document must be an instance of dict"
  else if operation == "update" then
    match getFieldD (match query with | .obj q => q | _ => []) "filter" (.obj []),
          getFieldD (match query with | .obj q => q | _ => []) "update" (.obj []) with
    | .obj f, .obj u =>
      let docs := getCollection s collection_name
      let modified := (docs.filter (matchesFilter f)).length
      let newDocs := docs.map (fun d => if matchesFilter f d then applyUpdate u d else d)
      .ok ([[("modified_count", JValue.num modified)]], setCollection s collection_name newDocs)
    | _, _ => .error "filter must be an instance of dict"
  else if operation == "delete" then
    match query with
    | .obj f =>
      let docs := getCollection s collection_name
      let deleted := (docs.filter (matchesFilter f)).length
      let kept := docs.filter (fun d => !matchesFilter f d)
      .ok ([[("deleted_count", JValue.num deleted)]], setCollection s collection_name kept)
    | _ => .error "filter must be an instance of dict"
  else if operation == "create_collection" then
    if (s.collections.lookup collection_name).isSome then
      .error ("collection " ++ collection_name ++ " already exists")
    else
      .ok ([[("message", JValue.str ("Collection " ++ collection_name ++ " created successfully"))]],
        { s with collections := s.collections ++ [(collection_name, [])] })
  else
    .error ("Unsupported operation: " ++ operation)

/-- Content items a tool call may return; the source signature admits
text, image and embedded-resource items, though every path of this router
builds text only. -/
inductive Content where
  | text : String → Content
  | image : String → String → Content
  | embedded : String → Content

/-- Content.isText: whether a content item is textual. -/
def Content.isText : Content → Bool
  | .text _ => true
  | _ => false

/-- Python `arguments[k]` on a dict: the value when the key is present,
otherwise a `KeyError` whose message is the repr of the key in single
quotes (`str(KeyError(k))` is `"'k'"`). -/
def dictGet (a : Args) (k : String) : Except String JValue :=
  match a.lookup k with
  | some v => .ok v
  | none => .error ("\x27" ++ k ++ "\x27")

/-- Collection names reaching the store must be strings; a non-string
raises the store client's type fault. -/
def asCollName : JValue → Except String String
  | .str s => .ok s
  | _ => .error "name must be an instance of str"

/-- Python truthiness test `not arguments` on the optional payload: true
when the payload is absent or an empty dict. -/
def argsEmpty : Option Args → Bool
  | none => true
  | some a => a.isEmpty

/-- Router branch for `find`: evaluates `arguments["query"]` then
`arguments["collection"]` (Python's left-to-right argument evaluation),
runs the gateway, and stringifies the result documents. -/
def dispatchFind (a : Args) (s : DBState) : Except String (List Content × DBState) :=
  match dictGet a "query" with
  | .error e => .error e
  | .ok q =>
    match dictGet a "collection" with
    | .error e => .error e
    | .ok c =>
      match asCollName c with
      | .error e => .error e
      | .ok cn =>
        match _execute_query q "find" cn s with
        | .error e => .error e
        | .ok (res, s1) => .ok ([Content.text (pyStrDocs res)], s1)

/-- Router branch for `aggregate`: wraps `arguments["pipeline"]` into the
query dict the gateway expects. -/
def dispatchAggregate (a : Args) (s : DBState) : Except String (List Content × DBState) :=
  match dictGet a "pipeline" with
  | .error e => .error e
  | .ok p =>
    match dictGet a "collection" with
    | .error e => .error e
    | .ok c =>
      match asCollName c with
      | .error e => .error e
      | .ok cn =>
        match _execute_query (.obj [("pipeline", p)]) "aggregate" cn s with
        | .error e => .error e
        | .ok (res, s1) => .ok ([Content.text (pyStrDocs res)], s1)

/-- Router branch for `insert`: passes `arguments["documents"]` directly as
the gateway query (a list selects `insert_many`, a dict `insert_one`). -/
def dispatchInsert (a : Args) (s : DBState) : Except String (List Content × DBState) :=
  match dictGet a "documents" with
  | .error e => .error e
  | .ok d =>
    match dictGet a "collection" with
    | .error e => .error e
    | .ok c =>
      match asCollName c with
      | .error e => .error e
      | .ok cn =>
        match _execute_query d "insert" cn s with
        | .error e => .error e
        | .ok (res, s1) => .ok ([Content.text (pyStrDocs res)], s1)

/-- Router branch for `update`: evaluates `arguments["filter"]`, then
`arguments["update"]`, then `arguments["collection"]`. -/
def dispatchUpdate (a : Args) (s : DBState) : Except String (List Content × DBState) :=
  match dictGet a "filter" with
  | .error e => .error e
  | .ok f =>
    match dictGet a "update" with
    | .error e => .error e
    | .ok u =>
      match dictGet a "collection" with
      | .error e => .error e
      | .ok c =>
        match asCollName c with
        | .error e => .error e
        | .ok cn =>
          match _execute_query (.obj [("filter", f), ("update", u)]) "update" cn s with
          | .error e => .error e
          | .ok (res, s1) => .ok ([Content.text (pyStrDocs res)], s1)

/-- Router branch for `delete`: passes `arguments["filter"]` as the query. -/
def dispatchDelete (a : Args) (s : DBState) : Except String (List Content × DBState) :=
  match dictGet a "filter" with
  | .error e => .error e
  | .ok f =>
    match dictGet a "collection" with
    | .error e => .error e
    | .ok c =>
      match asCollName c with
      | .error e => .error e
      | .ok cn =>
        match _execute_query f "delete" cn s with
        | .error e => .error e
        | .ok (res, s1) => .ok ([Content.text (pyStrDocs res)], s1)

/-- Router branch for `create-collection`: the collection name comes from
`arguments["name"]` and the query dict is empty. -/
def dispatchCreateCollection (a : Args) (s : DBState) : Except String (List Content × DBState) :=
  match dictGet a "name" with
  | .error e => .error e
  | .ok n =>
    match asCollName n with
    | .error e => .error e
    | .ok cn =>
      match _execute_query (.obj []) "create_collection" cn s with
      | .error e => .error e
      | .ok (res, s1) => .ok ([Content.text (pyStrDocs res)], s1)

/-- The cascade over the six database tools (the `if name == ...` chain of
the source past the append-insight branch), ending in the unknown-tool
fault. -/
def dispatchDB (name : String) (a : Args) (s : DBState) :
    Except String (List Content × DBState) :=
  if name == "find" then dispatchFind a s
  else if name == "aggregate" then dispatchAggregate a s
  else if name == "insert" then dispatchInsert a s
  else if name == "update" then dispatchUpdate a s
  else if name == "delete" then dispatchDelete a s
  else if name == "create-collection" then dispatchCreateCollection a s
  else .error ("Unknown tool: " ++ name)

/-- Body of handle_call_tool before the enclosing `except` clause: the
branch cascade of the source in order (`list-collections`, then
`append-insight`, then the non-empty-arguments guard, then the six
database tools, then the unknown-tool fault). An `Except.error` is a raised
exception; it carries the state at raise time, since mutations done before
a raise persist (Python has no rollback). `notify` is the outcome of the
awaited `send_resource_updated` substrate call. -/
def handleCallToolExc (name : String) (arguments : Option Args)
    (notify : Except String Unit) (s : DBState) :
    Except (String × DBState) (List Content × DBState) :=
  if name == "list-collections" then
    .ok ([Content.text (pyRepr (.arr ((s.collections.map Prod.fst).map JValue.str)))], s)
  else if name == "append-insight" then
    match arguments >>= fun a => a.lookup "insight" with
    | none => .error ("Missing insight argument", s)
    | some v =>
      let s1 := { s with insights := s.insights ++ [v] }
      let _memo := synthesize_memo s1.insights
      match notify with
      | .ok _ => .ok ([Content.text "Insight added to memo"], s1)
      | .error e => .error (e, s1)
  else if argsEmpty arguments then
    .error ("Missing arguments", s)
  else
    match dispatchDB name (arguments.getD []) s with
    | .ok v => .ok v
    | .error e => .error (e, s)

/-- handle_call_tool: the full router including its `except Exception`
clause — every raised fault becomes the single textual content item
`"Error: {message}"`, and no exception escapes. -/
def handle_call_tool (name : String) (arguments : Option Args)
    (notify : Except String Unit) (s : DBState) : List Content × DBState :=
  match handleCallToolExc name arguments notify s with
  | .ok r => r
  | .error (e, s1) => ([Content.text ("Error: " ++ e)], s1)

/-- Argument keys each database tool extracts from the payload, in the
source's evaluation order (Python evaluates the subscript expressions of a
call left to right before entering the gateway). -/
def requiredKeys : String → List String
  | "find" => ["query", "collection"]
  | "aggregate" => ["pipeline", "collection"]
  | "insert" => ["documents", "collection"]
  | "update" => ["filter", "update", "collection"]
  | "delete" => ["filter", "collection"]
  | "create-collection" => ["name"]
  | _ => []

/-- Resource address as the substrate delivers it: a scheme and the
remainder, with `str(uri)` being `scheme ++ "://" ++ rest`. -/
structure Uri where
  scheme : String
  rest : String

/-- String form of a resource address. -/
def uriStr (u : Uri) : String :=
  u.scheme ++ "://" ++ u.rest

/-- Helper for `pyReplaceDel`: when the pattern is a leading segment of the
character list, the remainder past it; otherwise nothing. -/
def dropPat : List Char → List Char → Option (List Char)
  | [], rest => some rest
  | _ :: _, [] => none
  | a :: ps, b :: ss => if a = b then dropPat ps ss else none

/-- Fuel-driven scan of Python `str.replace(pat, "")` for a non-empty
pattern: delete every left-to-right non-overlapping occurrence. Fuel at
least the list length makes the scan total and structural. -/
def replCharsF (p0 : Char) (ps : List Char) : Nat → List Char → List Char
  | _, [] => []
  | 0, rest => rest
  | fuel + 1, c :: rest =>
    match dropPat (p0 :: ps) (c :: rest) with
    | some rem => replCharsF p0 ps fuel rem
    | none => c :: replCharsF p0 ps fuel rest

/-- Python `s.replace(pat, "")` for a non-empty pattern (the source only
uses the pattern `"memo://"`); an empty pattern returns `s` unchanged. -/
def pyReplaceDel (pat s : String) : String :=
  match pat.data with
  | [] => s
  | p0 :: ps => String.mk (replCharsF p0 ps s.data.length s.data)

/-- handle_read_resource: validates the scheme is `memo`, strips every
occurrence of `"memo://"` from the full address to obtain the path,
requires the path to be exactly `insights`, and returns the freshly
synthesized memo; validation failures raise (`Except.error`) and propagate
to the substrate — there is no `except` clause here. -/
def handle_read_resource (uri : Uri) (s : DBState) : Except String String :=
  if uri.scheme ≠ "memo" then
    .error ("Unsupported URI scheme: " ++ uri.scheme)
  else
    let path := pyReplaceDel "memo://" (uriStr uri)
    if path = "" ∨ path ≠ "insights" then
      .error ("Unknown resource path: " ++ path)
    else
      .ok (synthesize_memo s.insights)

example : synthesize_memo [] = "No business insights have been discovered yet." := by rfl

example :
    synthesize_memo [JValue.str "A", JValue.str "B"] =
      "📊 Business Intelligence Memo 📊\n\nKey Insights Discovered:\n\n- A\n- B\nSummary:\nAnalysis has revealed 2 key business insights that suggest opportunities for strategic optimization and growth." := by
  rfl

example :
    handle_read_resource ⟨"memo", "insights"⟩ initialState =
      .ok "No business insights have been discovered yet." := by rfl

example :
    handle_read_resource ⟨"memo", "insights2"⟩ initialState =
      .error "Unknown resource path: insights2" := by rfl

example :
    handle_call_tool "foo" (some [("x", JValue.num 0)]) (.ok ()) initialState =
      ([Content.text ("Error: Unknown tool: foo")], initialState) := by rfl

example :
    handle_call_tool "find" (some [("collection", JValue.str "c")]) (.ok ()) initialState =
      ([Content.text ("Error: \x27query\x27")], initialState) := by rfl

example :
    handle_call_tool "insert"
      (some [("collection", JValue.str "orders"),
             ("documents", JValue.arr [JValue.obj [("orderId", JValue.str "1")]])])
      (.ok ()) initialState =
      ([Content.text "[\x7b\x27inserted_ids\x27: [\x27oid0\x27]\x7d]"],
       { collections := [("orders", [[("orderId", JValue.str "1"), ("_id", JValue.oid 0)]])],
         insights := [], nextId := 1 }) := by rfl

example :
    handle_call_tool "append-insight" (some [("insight", JValue.str "S")]) (.ok ()) initialState =
      ([Content.text "Insight added to memo"],
       { collections := [], insights := [JValue.str "S"], nextId := 0 }) := by rfl

/-- Helper: inserting a batch yields exactly one identifier per document. -/
theorem insertMany_fst_length (name : String) (s : DBState) (ds : List Doc) :
    ((insertMany name s ds).1).length = ds.length := by
  induction ds generalizing s with
  | nil => rfl
  | cons d ds ih => simp [insertMany, ih]

/-- Helper: viewing values as documents preserves the count. -/
theorem asDocs_length : ∀ (items : List JValue) (docs : List Doc),
    asDocs items = some docs → docs.length = items.length := by
  intro items
  induction items with
  | nil =>
    intro docs h
    simp [asDocs] at h
    simp [h]
  | cons x xs ih =>
    intro docs h
    cases x with
    | obj f =>
      simp only [asDocs, Option.map_eq_some'] at h
      obtain ⟨ds, hds, hcons⟩ := h
      subst hcons
      simp [ih ds hds]
    | str s => simp [asDocs] at h
    | num n => simp [asDocs] at h
    | oid n => simp [asDocs] at h
    | arr l => simp [asDocs] at h

/-- Helper: reading the memo resource returns the synthesized memo of the
current ledger. -/
theorem readMemo_eq (s : DBState) :
    handle_read_resource ⟨"memo", "insights"⟩ s = .ok (synthesize_memo s.insights) := by
  rfl

/-- Helper: append-insight with no insight key is rejected before any
mutation. -/
theorem appendInsight_missing (s : DBState) (notify : Except String Unit)
    (arguments : Option Args)
    (h : (arguments >>= fun a => a.lookup "insight") = none) :
    handle_call_tool "append-insight" arguments notify s =
      ([Content.text "Error: Missing insight argument"], s) := by
  unfold handle_call_tool handleCallToolExc
  simp [h]

/-- Helper: append-insight with an insight value and a successful
notification appends to the ledger and reports success. -/
theorem appendInsight_ok (s : DBState) (a : Args) (v : JValue)
    (h : a.lookup "insight" = some v) :
    handle_call_tool "append-insight" (some a) (Except.ok ()) s =
      ([Content.text "Insight added to memo"], { s with insights := s.insights ++ [v] }) := by
  unfold handle_call_tool handleCallToolExc
  simp [h]

/-- Helper: append-insight whose notification raises returns the converted
error text while the ledger keeps the appended insight. -/
theorem appendInsight_notifyFail (s : DBState) (a : Args) (v : JValue) (e : String)
    (h : a.lookup "insight" = some v) :
    handle_call_tool "append-insight" (some a) (Except.error e) s =
      ([Content.text ("Error: " ++ e)], { s with insights := s.insights ++ [v] }) := by
  unfold handle_call_tool handleCallToolExc
  simp [h]

/-- Helper: a successful find dispatch yields a single textual item. -/
theorem dispatchFind_ok_shape (a : Args) (s : DBState) (cs : List Content) (s1 : DBState)
    (h : dispatchFind a s = .ok (cs, s1)) : ∃ t, cs = [Content.text t] := by
  unfold dispatchFind at h
  repeat' split at h
  all_goals first
    | (simp only [Except.ok.injEq, Prod.mk.injEq] at h; exact ⟨_, h.1.symm⟩)
    | simp_all

/-- Helper: a successful aggregate dispatch yields a single textual item. -/
theorem dispatchAggregate_ok_shape (a : Args) (s : DBState) (cs : List Content) (s1 : DBState)
    (h : dispatchAggregate a s = .ok (cs, s1)) : ∃ t, cs = [Content.text t] := by
  unfold dispatchAggregate at h
  repeat' split at h
  all_goals first
    | (simp only [Except.ok.injEq, Prod.mk.injEq] at h; exact ⟨_, h.1.symm⟩)
    | simp_all

/-- Helper: a successful insert dispatch yields a single textual item. -/
theorem dispatchInsert_ok_shape (a : Args) (s : DBState) (cs : List Content) (s1 : DBState)
    (h : dispatchInsert a s = .ok (cs, s1)) : ∃ t, cs = [Content.text t] := by
  unfold dispatchInsert at h
  repeat' split at h
  all_goals first
    | (simp only [Except.ok.injEq, Prod.mk.injEq] at h; exact ⟨_, h.1.symm⟩)
    | simp_all

/-- Helper: a successful update dispatch yields a single textual item. -/
theorem dispatchUpdate_ok_shape (a : Args) (s : DBState) (cs : List Content) (s1 : DBState)
    (h : dispatchUpdate a s = .ok (cs, s1)) : ∃ t, cs = [Content.text t] := by
  unfold dispatchUpdate at h
  repeat' split at h
  all_goals first
    | (simp only [Except.ok.injEq, Prod.mk.injEq] at h; exact ⟨_, h.1.symm⟩)
    | simp_all

/-- Helper: a successful delete dispatch yields a single textual item. -/
theorem dispatchDelete_ok_shape (a : Args) (s : DBState) (cs : List Content) (s1 : DBState)
    (h : dispatchDelete a s = .ok (cs, s1)) : ∃ t, cs = [Content.text t] := by
  unfold dispatchDelete at h
  repeat' split at h
  all_goals first
    | (simp only [Except.ok.injEq, Prod.mk.injEq] at h; exact ⟨_, h.1.symm⟩)
    | simp_all

/-- Helper: a successful create-collection dispatch yields a single textual
item. -/
theorem dispatchCreateCollection_ok_shape (a : Args) (s : DBState) (cs : List Content)
    (s1 : DBState)
    (h : dispatchCreateCollection a s = .ok (cs, s1)) : ∃ t, cs = [Content.text t] := by
  unfold dispatchCreateCollection at h
  repeat' split at h
  all_goals first
    | (simp only [Except.ok.injEq, Prod.mk.injEq] at h; exact ⟨_, h.1.symm⟩)
    | simp_all

/-- Helper: a successful database-tool dispatch yields a single textual
item. -/
theorem dispatchDB_ok_shape (name : String) (a : Args) (s : DBState) (cs : List Content)
    (s1 : DBState)
    (h : dispatchDB name a s = .ok (cs, s1)) : ∃ t, cs = [Content.text t] := by
  unfold dispatchDB at h
  split at h
  · exact dispatchFind_ok_shape _ _ _ _ h
  · split at h
    · exact dispatchAggregate_ok_shape _ _ _ _ h
    · split at h
      · exact dispatchInsert_ok_shape _ _ _ _ h
      · split at h
        · exact dispatchUpdate_ok_shape _ _ _ _ h
        · split at h
          · exact dispatchDelete_ok_shape _ _ _ _ h
          · split at h
            · exact dispatchCreateCollection_ok_shape _ _ _ _ h
            · simp_all

/-- Helper: every branch of the router body that completes without raising
produces a single textual content item. -/
theorem handleCallToolExc_ok_shape (name : String) (arguments : Option Args)
    (notify : Except String Unit) (s : DBState) (cs : List Content) (s1 : DBState)
    (h : handleCallToolExc name arguments notify s = .ok (cs, s1)) :
    ∃ t, cs = [Content.text t] := by
  unfold handleCallToolExc at h
  split at h
  · simp at h
    exact ⟨_, h.1.symm⟩
  · split at h
    · split at h
      · simp_all
      · split at h
        · simp at h
          exact ⟨_, h.1.symm⟩
        · simp_all
    · split at h
      · simp_all
      · split at h
        case _ v hv =>
          simp at h
          exact dispatchDB_ok_shape _ _ _ _ _ (h ▸ hv)
        case _ => simp_all

/-- C1: synthesizing the memo on an empty ledger returns exactly the fixed
no-insights sentence; on a non-empty ledger it returns the header, then one
"- "-bulleted line per insight in ledger (append) order, and the summary
stating the insight count is appended if and only if the count exceeds 1
(in particular, a single insight gets no summary). -/
theorem spec_memo_format :
    synthesize_memo [] = "No business insights have been discovered yet." ∧
    ∀ l : List JValue, l ≠ [] →
      synthesize_memo l =
        "📊 Business Intelligence Memo 📊\n\n" ++ "Key Insights Discovered:\n\n" ++
          String.intercalate "\n" (l.map (fun insight => "- " ++ pyStr insight)) ++
          (if l.length > 1 then
            "\nSummary:\n" ++
              ("Analysis has revealed " ++ toString l.length ++
                " key business insights that suggest opportunities for strategic optimization and growth.")
          else "") := by
  refine ⟨rfl, ?_⟩
  intro l hl
  have hne : l.isEmpty = false := by
    cases l with
    | nil => exact absurd rfl hl
    | cons x xs => rfl
  by_cases h2 : l.length > 1 <;>
    simp [synthesize_memo, hne, h2, String.append_assoc]

/-- Witness for C1 at a one-insight ledger. -/
theorem spec_memo_format_witness :
    synthesize_memo [JValue.str "Sales spike in Q4"] =
      "📊 Business Intelligence Memo 📊\n\n" ++ "Key Insights Discovered:\n\n" ++
        String.intercalate "\n"
          (([JValue.str "Sales spike in Q4"]).map (fun insight => "- " ++ pyStr insight)) ++
        (if ([JValue.str "Sales spike in Q4"] : List JValue).length > 1 then
          "\nSummary:\n" ++
            ("Analysis has revealed " ++ toString ([JValue.str "Sales spike in Q4"] : List JValue).length ++
              " key business insights that suggest opportunities for strategic optimization and growth.")
        else "") :=
  spec_memo_format.2 [JValue.str "Sales spike in Q4"] (by simp)

/-- C2: the router is a total function — for every tool name, arguments
payload, notification outcome and state, the response is a single textual
content item, and whenever the body raises a fault the response is exactly
the converted text "Error: {message}"; no exception escapes. -/
theorem spec_router_total (name : String) (arguments : Option Args)
    (notify : Except String Unit) (s : DBState) :
    (∃ t : String, (handle_call_tool name arguments notify s).1 = [Content.text t]) ∧
    ∀ e : String, ∀ s1 : DBState,
      handleCallToolExc name arguments notify s = .error (e, s1) →
      handle_call_tool name arguments notify s = ([Content.text ("Error: " ++ e)], s1) := by
  constructor
  · unfold handle_call_tool
    cases h : handleCallToolExc name arguments notify s with
    | ok v =>
      obtain ⟨cs, s1⟩ := v
      obtain ⟨t, ht⟩ := handleCallToolExc_ok_shape name arguments notify s cs s1 h
      exact ⟨t, by simp [ht]⟩
    | error es =>
      obtain ⟨e, s1⟩ := es
      exact ⟨"Error: " ++ e, by simp⟩
  · intro e s1 h
    unfold handle_call_tool
    rw [h]

/-- Witness for C2 at an unknown tool name, where the body raises. -/
theorem spec_router_total_witness :
    handle_call_tool "foo" (some [("x", JValue.num 0)]) (Except.ok ()) initialState =
      ([Content.text ("Error: " ++ "Unknown tool: foo")], initialState) :=
  (spec_router_total "foo" (some [("x", JValue.num 0)]) (Except.ok ()) initialState).2
    "Unknown tool: foo" initialState (by rfl)

/-- C3: append-insight without an insight key (absent or incomplete
payload) returns the error text "Missing insight argument" and changes
nothing; with an insight value it appends to the ledger, and — the
notification having been emitted successfully — returns the success content
"Insight added to memo". The memo recomputation between the append and the
notification is pure and its result discarded (`let _memo` in the body). -/
theorem spec_append_insight (s : DBState) (notify : Except String Unit) :
    (∀ arguments : Option Args,
        (arguments >>= fun a => a.lookup "insight") = none →
        handle_call_tool "append-insight" arguments notify s =
          ([Content.text "Error: Missing insight argument"], s)) ∧
    (∀ (a : Args) (v : JValue), a.lookup "insight" = some v →
        handle_call_tool "append-insight" (some a) (Except.ok ()) s =
          ([Content.text "Insight added to memo"],
            { s with insights := s.insights ++ [v] })) :=
  ⟨fun arguments h => appendInsight_missing s notify arguments h,
   fun a v h => appendInsight_ok s a v h⟩

/-- Witness for C3: a concrete successful append. -/
theorem spec_append_insight_witness :
    handle_call_tool "append-insight" (some [("insight", JValue.str "Sales spike in Q4")])
        (Except.ok ()) initialState =
      ([Content.text "Insight added to memo"],
        { initialState with
            insights := initialState.insights ++ [JValue.str "Sales spike in Q4"] }) :=
  (spec_append_insight initialState (Except.ok ())).2
    [("insight", JValue.str "Sales spike in Q4")] (JValue.str "Sales spike in Q4") (by rfl)

/-- C4: reading memo://insights returns the freshly synthesized memo of the
ledger at call time (read-after-write included: an append followed by a
read shows the new insight); a read whose scheme is not "memo", or whose
computed path is not exactly "insights", raises a hard fault
(`Except.error`, no soft "Error: " content conversion exists on this
path). -/
theorem spec_read_resource (s : DBState) :
    (handle_read_resource ⟨"memo", "insights"⟩ s = .ok (synthesize_memo s.insights)) ∧
    (∀ (a : Args) (v : JValue), a.lookup "insight" = some v →
        handle_read_resource ⟨"memo", "insights"⟩
            (handle_call_tool "append-insight" (some a) (Except.ok ()) s).2 =
          .ok (synthesize_memo (s.insights ++ [v]))) ∧
    (∀ uri : Uri, uri.scheme ≠ "memo" →
        handle_read_resource uri s = .error ("Unsupported URI scheme: " ++ uri.scheme)) ∧
    (∀ uri : Uri, uri.scheme = "memo" →
        pyReplaceDel "memo://" (uriStr uri) ≠ "insights" →
        handle_read_resource uri s =
          .error ("Unknown resource path: " ++ pyReplaceDel "memo://" (uriStr uri))) := by
  refine ⟨readMemo_eq s, ?_, ?_, ?_⟩
  · intro a v h
    rw [appendInsight_ok s a v h]
    exact readMemo_eq _
  · intro uri h
    unfold handle_read_resource
    rw [if_pos h]
  · intro uri h1 h2
    unfold handle_read_resource
    rw [if_neg (by simp [h1])]
    show (if pyReplaceDel "memo://" (uriStr uri) = "" ∨
            pyReplaceDel "memo://" (uriStr uri) ≠ "insights" then _ else _) = _
    rw [if_pos (Or.inr h2)]

/-- Witness for C4 at a wrong scheme and the memo address. -/
theorem spec_read_resource_witness :
    handle_read_resource ⟨"http", "insights"⟩ initialState =
      .error ("Unsupported URI scheme: " ++ "http") :=
  (spec_read_resource initialState).2.2.1 ⟨"http", "insights"⟩ (by decide)

/-- C10: an append-insight error response does not imply the ledger is
unchanged — when the resource-updated notification raises after the append,
the call returns "Error: ..." text while the appended insight remains in
the ledger (no rollback); only the validation failure (missing insight key)
leaves the state untouched. -/
theorem spec_append_no_rollback (s : DBState) (a : Args) (v : JValue) (e : String)
    (h : a.lookup "insight" = some v) :
    (handle_call_tool "append-insight" (some a) (Except.error e) s =
        ([Content.text ("Error: " ++ e)], { s with insights := s.insights ++ [v] })) ∧
    (∀ arguments : Option Args,
        (arguments >>= fun x => x.lookup "insight") = none →
        (handle_call_tool "append-insight" arguments (Except.error e) s).2 = s) :=
  ⟨appendInsight_notifyFail s a v e h,
   fun arguments hm => by rw [appendInsight_missing s (Except.error e) arguments hm]⟩

/-- Witness for C10: a concrete failing notification after an append. -/
theorem spec_append_no_rollback_witness :
    handle_call_tool "append-insight" (some [("insight", JValue.str "S")])
        (Except.error "boom") initialState =
      ([Content.text ("Error: " ++ "boom")],
        { initialState with insights := initialState.insights ++ [JValue.str "S"] }) :=
  (spec_append_no_rollback initialState [("insight", JValue.str "S")] (JValue.str "S")
    "boom" (by rfl)).1

/-- C5: a tool call whose name is outside the fixed enum, with a non-empty
arguments payload, yields the textual error content "Error: Unknown tool:
{name}" — a content response, not a raised transport fault (the function
returns normally). -/
theorem spec_unknown_tool (name : String) (a : Args) (notify : Except String Unit)
    (s : DBState)
    (hname : name ∉ (["find", "aggregate", "insert", "update", "delete",
        "create-collection", "list-collections", "append-insight"] : List String))
    (hne : a ≠ []) :
    handle_call_tool name (some a) notify s =
      ([Content.text ("Error: " ++ ("Unknown tool: " ++ name))], s) := by
  simp only [List.mem_cons, List.not_mem_nil, or_false, not_or] at hname
  obtain ⟨h1, h2, h3, h4, h5, h6, h7, h8⟩ := hname
  unfold handle_call_tool handleCallToolExc dispatchDB
  simp [argsEmpty, h1, h2, h3, h4, h5, h6, h7, h8, hne]

/-- Witness for C5 at the unknown name "foo". -/
theorem spec_unknown_tool_witness :
    handle_call_tool "foo" (some [("x", JValue.num 0)]) (Except.ok ()) initialState =
      ([Content.text ("Error: " ++ ("Unknown tool: " ++ "foo"))], initialState) :=
  spec_unknown_tool "foo" [("x", JValue.num 0)] (Except.ok ()) initialState
    (by decide) (by simp)

/-- C6: for any tool name other than append-insight and list-collections
(known or not), an absent or empty arguments payload yields the error text
"Error: Missing arguments"; list-collections with an absent payload instead
succeeds with the collection listing, and append-insight with an absent
payload yields its own missing-insight error. -/
theorem spec_missing_arguments (notify : Except String Unit) (s : DBState) :
    (∀ (name : String) (arguments : Option Args),
        name ≠ "append-insight" → name ≠ "list-collections" →
        argsEmpty arguments = true →
        handle_call_tool name arguments notify s =
          ([Content.text ("Error: " ++ "Missing arguments")], s)) ∧
    (handle_call_tool "list-collections" none notify s =
        ([Content.text (pyRepr (JValue.arr ((s.collections.map Prod.fst).map JValue.str)))],
          s)) ∧
    (handle_call_tool "append-insight" none notify s =
        ([Content.text ("Error: " ++ "Missing insight argument")], s)) := by
  refine ⟨?_, ?_, ?_⟩
  · intro name arguments h1 h2 he
    unfold handle_call_tool handleCallToolExc
    simp [h1, h2, he]
  · unfold handle_call_tool handleCallToolExc
    simp
  · unfold handle_call_tool handleCallToolExc
    simp

/-- Witness for C6: "find" with an absent payload. -/
theorem spec_missing_arguments_witness :
    handle_call_tool "find" none (Except.ok ()) initialState =
      ([Content.text ("Error: " ++ "Missing arguments")], initialState) :=
  (spec_missing_arguments (Except.ok ()) initialState).1 "find" none
    (by decide) (by decide) (by rfl)

/-- C7: the gateway's insert accepts a sequence of documents or a single
document, and every generated identifier comes back rendered as a string
value (`JValue.str`, never the store-native `JValue.oid`): a sequence input
yields one result document listing one stringified identifier per inserted
document, a single-document input yields one result document with that
document's identifier stringified. -/
theorem spec_insert_stringifies (cn : String) (s : DBState) (items : List JValue)
    (docs : List Doc) (fields : Doc)
    (hne : items ≠ []) (hdocs : asDocs items = some docs) :
    (∃ (ids : List String) (s1 : DBState),
        _execute_query (JValue.arr items) "insert" cn s =
          .ok ([[("inserted_ids", JValue.arr (ids.map JValue.str))]], s1) ∧
        ids.length = items.length) ∧
    (∃ (idStr : String) (s1 : DBState),
        _execute_query (JValue.obj fields) "insert" cn s =
          .ok ([[("inserted_id", JValue.str idStr)]], s1)) := by
  constructor
  · refine ⟨(insertMany cn s docs).1.map pyStr, (insertMany cn s docs).2, ?_, ?_⟩
    · have hni : items.isEmpty = false := by
        cases items with
        | nil => exact absurd rfl hne
        | cons x xs => rfl
      unfold _execute_query
      simp [hni, hdocs, List.map_map, Function.comp]
    · rw [List.length_map, insertMany_fst_length, asDocs_length items docs hdocs]
  · refine ⟨pyStr (insertDoc s cn fields).1, (insertDoc s cn fields).2, ?_⟩
    unfold _execute_query
    simp

/-- Witness for C7: two documents inserted as a batch, and one single
document. -/
theorem spec_insert_stringifies_witness :
    (∃ (ids : List String) (s1 : DBState),
        _execute_query
            (JValue.arr [JValue.obj [("a", JValue.num 1)], JValue.obj [("b", JValue.num 2)]])
            "insert" "orders" initialState =
          .ok ([[("inserted_ids", JValue.arr (ids.map JValue.str))]], s1) ∧
        ids.length =
          ([JValue.obj [("a", JValue.num 1)], JValue.obj [("b", JValue.num 2)]] :
            List JValue).length) ∧
    (∃ (idStr : String) (s1 : DBState),
        _execute_query (JValue.obj [("a", JValue.num 1)]) "insert" "orders" initialState =
          .ok ([[("inserted_id", JValue.str idStr)]], s1)) :=
  spec_insert_stringifies "orders" initialState
    [JValue.obj [("a", JValue.num 1)], JValue.obj [("b", JValue.num 2)]]
    [[("a", JValue.num 1)], [("b", JValue.num 2)]] [("a", JValue.num 1)]
    (by simp) (by rfl)

/-- C8: the gateway's update applies the update operations to every
document matching the filter (multi-document) and returns the count of
modified documents; delete removes every document matching the filter
(multi-document) and returns the count of deleted documents. -/
theorem spec_update_delete_multi (cn : String) (s : DBState) (f u : Doc) :
    (_execute_query (JValue.obj [("filter", JValue.obj f), ("update", JValue.obj u)])
        "update" cn s =
      .ok ([[("modified_count",
              JValue.num ((getCollection s cn).filter (matchesFilter f)).length)]],
        setCollection s cn
          ((getCollection s cn).map
            (fun d => if matchesFilter f d then applyUpdate u d else d)))) ∧
    (_execute_query (JValue.obj f) "delete" cn s =
      .ok ([[("deleted_count",
              JValue.num ((getCollection s cn).filter (matchesFilter f)).length)]],
        setCollection s cn ((getCollection s cn).filter (fun d => !matchesFilter f d)))) := by
  constructor
  · unfold _execute_query
    simp [getFieldD, List.lookup]
  · unfold _execute_query
    simp

/-- C9: calling any of the six database tools with a non-empty payload that
lacks a required field returns error text that is exactly "Error: " plus
the Python repr of the first missing key in single quotes (the bare
`str(KeyError)` message), not a descriptive sentence naming the tool or the
field's role. -/
theorem spec_keyerror_text (name : String) (a : Args) (notify : Except String Unit)
    (s : DBState) (k : String)
    (hmem : name ∈ (["find", "aggregate", "insert", "update", "delete",
        "create-collection"] : List String))
    (hne : a ≠ [])
    (hfirst : (requiredKeys name).find? (fun k2 => (a.lookup k2).isNone) = some k) :
    handle_call_tool name (some a) notify s =
      ([Content.text ("Error: " ++ ("\x27" ++ k ++ "\x27"))], s) := by
  fin_cases hmem
  · -- find
    cases hq : a.lookup "query" with
    | none =>
      simp [requiredKeys, List.find?, hq] at hfirst
      subst hfirst
      unfold handle_call_tool handleCallToolExc dispatchDB dispatchFind dictGet
      simp [hq, hne, argsEmpty]
    | some qv =>
      cases hc : a.lookup "collection" with
      | none =>
        simp [requiredKeys, List.find?, hq, hc] at hfirst
        subst hfirst
        unfold handle_call_tool handleCallToolExc dispatchDB dispatchFind dictGet
        simp [hq, hc, hne, argsEmpty]
      | some cv => simp [requiredKeys, List.find?, hq, hc] at hfirst
  · -- aggregate
    cases hp : a.lookup "pipeline" with
    | none =>
      simp [requiredKeys, List.find?, hp] at hfirst
      subst hfirst
      unfold handle_call_tool handleCallToolExc dispatchDB dispatchAggregate dictGet
      simp [hp, hne, argsEmpty]
    | some pv =>
      cases hc : a.lookup "collection" with
      | none =>
        simp [requiredKeys, List.find?, hp, hc] at hfirst
        subst hfirst
        unfold handle_call_tool handleCallToolExc dispatchDB dispatchAggregate dictGet
        simp [hp, hc, hne, argsEmpty]
      | some cv => simp [requiredKeys, List.find?, hp, hc] at hfirst
  · -- insert
    cases hd : a.lookup "documents" with
    | none =>
      simp [requiredKeys, List.find?, hd] at hfirst
      subst hfirst
      unfold handle_call_tool handleCallToolExc dispatchDB dispatchInsert dictGet
      simp [hd, hne, argsEmpty]
    | some dv =>
      cases hc : a.lookup "collection" with
      | none =>
        simp [requiredKeys, List.find?, hd, hc] at hfirst
        subst hfirst
        unfold handle_call_tool handleCallToolExc dispatchDB dispatchInsert dictGet
        simp [hd, hc, hne, argsEmpty]
      | some cv => simp [requiredKeys, List.find?, hd, hc] at hfirst
  · -- update
    cases hf : a.lookup "filter" with
    | none =>
      simp [requiredKeys, List.find?, hf] at hfirst
      subst hfirst
      unfold handle_call_tool handleCallToolExc dispatchDB dispatchUpdate dictGet
      simp [hf, hne, argsEmpty]
    | some fv =>
      cases hu : a.lookup "update" with
      | none =>
        simp [requiredKeys, List.find?, hf, hu] at hfirst
        subst hfirst
        unfold handle_call_tool handleCallToolExc dispatchDB dispatchUpdate dictGet
        simp [hf, hu, hne, argsEmpty]
      | some uv =>
        cases hc : a.lookup "collection" with
        | none =>
          simp [requiredKeys, List.find?, hf, hu, hc] at hfirst
          subst hfirst
          unfold handle_call_tool handleCallToolExc dispatchDB dispatchUpdate dictGet
          simp [hf, hu, hc, hne, argsEmpty]
        | some cv => simp [requiredKeys, List.find?, hf, hu, hc] at hfirst
  · -- delete
    cases hf : a.lookup "filter" with
    | none =>
      simp [requiredKeys, List.find?, hf] at hfirst
      subst hfirst
      unfold handle_call_tool handleCallToolExc dispatchDB dispatchDelete dictGet
      simp [hf, hne, argsEmpty]
    | some fv =>
      cases hc : a.lookup "collection" with
      | none =>
        simp [requiredKeys, List.find?, hf, hc] at hfirst
        subst hfirst
        unfold handle_call_tool handleCallToolExc dispatchDB dispatchDelete dictGet
        simp [hf, hc, hne, argsEmpty]
      | some cv => simp [requiredKeys, List.find?, hf, hc] at hfirst
  · -- create-collection
    cases hn : a.lookup "name" with
    | none =>
      simp [requiredKeys, List.find?, hn] at hfirst
      subst hfirst
      unfold handle_call_tool handleCallToolExc dispatchDB dispatchCreateCollection dictGet
      simp [hn, hne, argsEmpty]
    | some nv => simp [requiredKeys, List.find?, hn] at hfirst

/-- Witness for C9: find without a query field. -/
theorem spec_keyerror_text_witness :
    handle_call_tool "find" (some [("collection", JValue.str "c")]) (Except.ok ())
        initialState =
      ([Content.text ("Error: " ++ ("\x27" ++ "query" ++ "\x27"))], initialState) :=
  spec_keyerror_text "find" [("collection", JValue.str "c")] (Except.ok ()) initialState
    "query" (by decide) (by simp) (by rfl)
